import Mathlib

/-!
Shallow embedding of `src/sysinfo.py` (a one-shot Task-Manager-style
console report) and proofs of the specification claims about it.

Modelling conventions:
* Python strings are Lean `String`; slicing `s[:k]` is `pyTake`, the
  format-spec paddings `<w` and `>w` are `pyLjust` / `pyRjust`.
* Python floats are modelled as exact rationals; the fixed-point format
  specs `.2f` / `.1f` are modelled as round-half-to-even on the exact
  rational value, which agrees with CPython for all quotients that are
  exactly representable in binary floating point.
* `psutil` process handles that raise `NoSuchProcess` at the `p.info`
  read are modelled as `none` entries of the enumeration list; a service
  whose `as_dict()` raises is a handle whose `as_dict` field is `none`;
  a failing `win_service_iter()` is an `Except.error` provider result.
* Console output is modelled at line granularity: each section function
  returns the list of lines it prints, a `print()` of an empty string
  (and the trailing newline written inside an f-string) contributing "".
-/

/-- Python string slicing `s[:n]`. -/
def pyTake (s : String) (n : Nat) : String := ⟨s.data.take n⟩

/-- Python format spec `<w` (left justify with spaces; never truncates). -/
def pyLjust (s : String) (w : Nat) : String :=
  ⟨s.data ++ List.replicate (w - s.data.length) ' '⟩

/-- Python format spec `>w` (right justify with spaces; never truncates). -/
def pyRjust (s : String) (w : Nat) : String :=
  ⟨List.replicate (w - s.data.length) ' ' ++ s.data⟩

/-- Round `num / den` to the nearest integer, ties to even, as CPython
fixed-point formatting does on the exactly-represented quotient. -/
def roundHalfEven (num den : Nat) : Nat :=
  let q := num / den
  let r := num % den
  if 2 * r < den then q
  else if den < 2 * r then q + 1
  else if q % 2 = 0 then q else q + 1

/-- Two-digit decimal field (the fractional part of a `.2f` rendering). -/
def pad2 (n : Nat) : String := if n < 10 then "0" ++ toString n else toString n

/-- `format_gib` from `src/sysinfo.py` line 30: `f"{bytes_val / (2 ** 30):.2f} GiB"`. -/
def format_gib (bytes_val : Nat) : String :=
  let scaled := roundHalfEven (bytes_val * 100) (2 ^ 30)
  toString (scaled / 100) ++ "." ++ pad2 (scaled % 100) ++ " GiB"

/-- Python format spec `.1f` applied to a non-negative rational
(cpu percentages; psutil guarantees `cpu_percent ≥ 0`). -/
def fmt1 (x : Rat) : String :=
  let scaled := roundHalfEven (x.num.toNat * 10) x.den
  toString (scaled / 10) ++ "." ++ toString (scaled % 10)

/-- ASCII model of Python `str.lower()` (service names are ASCII). -/
def strLower (s : String) : String := ⟨s.data.map Char.toLower⟩

/-- Python `opt or default` for an optional string: both `None` and the
empty string are falsy. -/
def pyOrElse (o : Option String) (dflt : String) : String :=
  match o with
  | none => dflt
  | some s => if s = "" then dflt else s

/-! ## Data model (records read from the psutil provider) -/

/-- The `memory_info` named tuple; only `rss` is consumed. -/
structure MemInfo where
  rss : Nat
deriving DecidableEq, Repr

/-- The `p.info` dict requested by `process_iter` in `get_top_processes`
and `print_process_details`: pid, name, username, status, cpu_percent,
memory_info.  Fields psutil may return as `None` are `Option`s. -/
structure ProcInfo where
  pid : Nat
  name : Option String
  username : Option String
  status : Option String
  cpu_percent : Rat
  memory_info : Option MemInfo
deriving DecidableEq, Repr

/-- The row dict built by `get_top_processes` (lines 89-97). -/
structure ProcRow where
  pid : Nat
  name : String
  username : String
  cpu_percent : Rat
  memory_rss_gib : String
deriving DecidableEq, Repr

/-- The row dict built by `print_process_details` (lines 149-160). -/
structure DetailRow where
  pid : Nat
  name : String
  status : String
  username : String
  cpu_percent : Rat
  memory_rss_gib : String
  description : String
deriving DecidableEq, Repr

/-- A `psutil.users()` entry: name, host, terminal, started.  `host` and
`terminal` may be `None`.  The textual rendering of the `started`
timestamp is provider-side and kept abstract as a string. -/
structure UserSess where
  name : String
  host : Option String
  terminal : Option String
  started : String
deriving DecidableEq, Repr

/-- The dict returned by a successful `service.as_dict()`. -/
structure SvcInfo where
  name : String
  display_name : String
  status : String
  pid : Option Nat
deriving DecidableEq, Repr

/-- A `win_service_iter()` handle: `s.name()` (used as the sort key) and
the result of `s.as_dict()`, `none` when that call raises (line 218-221). -/
structure SvcHandle where
  name : String
  as_dict : Option SvcInfo
deriving DecidableEq, Repr

/-! ## Ranker (sort by cpu_percent descending, truncate) -/

/-- Descending comparison on a rational key; `list.sort(key=…, reverse=True)`
is a stable sort with exactly this relation. -/
def keyDesc {α : Type} (key : α → Rat) (a b : α) : Prop := key b ≤ key a

instance {α : Type} (key : α → Rat) : DecidableRel (keyDesc key) :=
  fun a b => inferInstanceAs (Decidable (key b ≤ key a))

instance {α : Type} (key : α → Rat) : IsTotal α (keyDesc key) :=
  ⟨fun a b => (le_total (key b) (key a)).imp id id⟩

instance {α : Type} (key : α → Rat) : IsTrans α (keyDesc key) :=
  ⟨fun _ _ _ h1 h2 => le_trans h2 h1⟩

/-- `rows.sort(key=lambda x: x[key], reverse=True)` followed by
`rows[:limit]` — the ranker of lines 99-100 and 162-163. -/
def rank {α : Type} (key : α → Rat) (rows : List α) (limit : Nat) : List α :=
  (List.insertionSort (keyDesc key) rows).take limit

/-! ## Snapshot sampler -/

/-- Row construction in `get_top_processes` (lines 86-97): absent
name/username default to the empty string, an absent `memory_info`
defaults the rss to 0 before formatting. -/
def buildSummaryRow (info : ProcInfo) : ProcRow :=
  { pid := info.pid
    name := pyOrElse info.name ""
    username := pyOrElse info.username ""
    cpu_percent := info.cpu_percent
    memory_rss_gib := format_gib (match info.memory_info with
      | some m => m.rss
      | none => 0) }

/-- Row construction in `print_process_details` (lines 146-160). -/
def buildDetailRow (info : ProcInfo) : DetailRow :=
  { pid := info.pid
    name := pyOrElse info.name ""
    status := pyOrElse info.status ""
    username := pyOrElse info.username ""
    cpu_percent := info.cpu_percent
    memory_rss_gib := format_gib (match info.memory_info with
      | some m => m.rss
      | none => 0)
    description := pyOrElse info.name "" }

/-- The sampled summary rows: handles that vanished (raised
`NoSuchProcess` at the `p.info` read) are skipped via `continue`. -/
def summaryRows (procs : List (Option ProcInfo)) : List ProcRow :=
  (procs.filterMap id).map buildSummaryRow

/-- The sampled detail rows of `print_process_details`. -/
def detailRows (procs : List (Option ProcInfo)) : List DetailRow :=
  (procs.filterMap id).map buildDetailRow

/-- `get_top_processes` (lines 69-100): sample, sort by cpu_percent
descending, return the first `limit` rows. -/
def get_top_processes (procs : List (Option ProcInfo)) (limit : Nat) : List ProcRow :=
  rank ProcRow.cpu_percent (summaryRows procs) limit

/-! ## Renderers and report sections (output modelled as printed lines) -/

/-- The per-row f-string of `print_processes_summary` (lines 112-118). -/
def renderSummaryRow (p : ProcRow) : String :=
  "PID " ++ pyLjust (toString p.pid) 6 ++ " " ++
  "CPU " ++ pyRjust (fmt1 p.cpu_percent) 5 ++ "%  " ++
  "MEM " ++ pyRjust p.memory_rss_gib 8 ++ "  " ++
  "USER " ++ p.username ++ "  " ++
  "NAME " ++ p.name

/-- `print_processes_summary` (lines 103-119). -/
def print_processes_summary_lines (procs : List (Option ProcInfo)) (limit : Nat) :
    List String :=
  let header := "=== Processes (top " ++ toString limit ++ " by CPU) ==="
  let top := get_top_processes procs limit
  if top.isEmpty then [header, "No processes found.", ""]
  else header :: top.map renderSummaryRow ++ [""]

/-- The per-row f-string of `print_process_details` (lines 169-177). -/
def renderDetailRow (r : DetailRow) : String :=
  pyLjust (pyTake r.name 28) 30 ++
  (pyLjust (toString r.pid) 7 ++
   (pyLjust (pyTake r.status 10) 12 ++
    (pyLjust (pyTake r.username 16) 18 ++
     (pyRjust (fmt1 r.cpu_percent) 5 ++ "%  " ++
      (pyLjust r.memory_rss_gib 10 ++
       pyTake r.description 30)))))

/-- The column-header line of the Details table (line 166). -/
def detailsColumnHeader : String :=
  "Name                            PID    Status      User              CPU%   Mem (RSS)   Description"

/-- `print_process_details` (lines 124-178): note there is no empty-input
branch — the header, column header and rule are printed unconditionally
and an empty row list yields an empty table body. -/
def print_process_details_lines (procs : List (Option ProcInfo)) (limit : Nat) :
    List String :=
  let rows := rank DetailRow.cpu_percent (detailRows procs) limit
  ["=== Details (top " ++ toString limit ++ " by CPU) ===",
   detailsColumnHeader,
   ⟨List.replicate 100 '-'⟩] ++ rows.map renderDetailRow ++ [""]

/-- The per-session f-string of `print_users` (lines 191-196):
`u.host or '-'` and `u.terminal or '-'`. -/
def renderUser (u : UserSess) : String :=
  "User: " ++ u.name ++ "  " ++
  "Host: " ++ pyOrElse u.host "-" ++ "  " ++
  "Terminal: " ++ pyOrElse u.terminal "-" ++ "  " ++
  "Started: " ++ u.started

/-- `print_users` (lines 183-197). -/
def print_users_lines (users : List UserSess) : List String :=
  if users.isEmpty then ["=== Users ===", "No active user sessions detected.", ""]
  else "=== Users ===" :: users.map renderUser ++ [""]

/-- The per-service f-string of `print_services` (lines 228-233):
`str(pid) if pid is not None else '-'`. -/
def renderSvcInfo (info : SvcInfo) : String :=
  "Name: " ++ pyLjust info.name 30 ++ "  " ++
  "PID: " ++ pyLjust (match info.pid with
    | some p => toString p
    | none => "-") 6 ++ "  " ++
  "Status: " ++ pyLjust info.status 10 ++ "  " ++
  "Description: " ++ info.display_name

/-- Code-point lexicographic `≤` on character lists — the comparison
Python uses on `str` sort keys. -/
def charListLeb : List Char → List Char → Bool
  | [], _ => true
  | _ :: _, [] => false
  | a :: as, b :: bs => if a < b then true else if b < a then false else charListLeb as bs

theorem charListLeb_total (x y : List Char) :
    charListLeb x y = true ∨ charListLeb y x = true := by
  induction x generalizing y with
  | nil => left; rfl
  | cons a as ih =>
    cases y with
    | nil => right; rfl
    | cons b bs =>
      rcases lt_trichotomy a b with h | h | h
      · left; simp [charListLeb, h]
      · subst h
        rcases ih bs with h2 | h2
        · left; simp [charListLeb, lt_irrefl, h2]
        · right; simp [charListLeb, lt_irrefl, h2]
      · right; simp [charListLeb, h]

theorem charListLeb_trans (x y z : List Char) (hxy : charListLeb x y = true)
    (hyz : charListLeb y z = true) : charListLeb x z = true := by
  induction x generalizing y z with
  | nil => rfl
  | cons a as ih =>
    cases y with
    | nil => simp [charListLeb] at hxy
    | cons b bs =>
      cases z with
      | nil => simp [charListLeb] at hyz
      | cons c cs =>
        rcases lt_trichotomy a b with hab | hab | hab
        · rcases lt_trichotomy b c with hbc | hbc | hbc
          · simp [charListLeb, lt_trans hab hbc]
          · subst hbc; simp [charListLeb, hab]
          · simp [charListLeb, hbc, not_lt.mpr (le_of_lt hbc)] at hyz
        · subst hab
          rcases lt_trichotomy a c with hbc | hbc | hbc
          · simp [charListLeb, hbc]
          · subst hbc
            simp only [charListLeb, lt_irrefl, if_neg (lt_irrefl a)] at hxy hyz ⊢
            simp only [if_false] at hxy hyz ⊢
            exact ih bs cs hxy hyz
          · simp [charListLeb, hbc, not_lt.mpr (le_of_lt hbc)] at hyz
        · simp [charListLeb, hab, not_lt.mpr (le_of_lt hab)] at hxy

/-- Case-insensitive ascending order on service names —
`services.sort(key=lambda s: s.name().lower())` (line 215). -/
def svcNameLe (a b : SvcHandle) : Prop :=
  charListLeb (strLower a.name).data (strLower b.name).data = true

instance : DecidableRel svcNameLe :=
  fun a b =>
    inferInstanceAs (Decidable (charListLeb (strLower a.name).data (strLower b.name).data = true))

instance : IsTotal SvcHandle svcNameLe :=
  ⟨fun a b => charListLeb_total (strLower a.name).data (strLower b.name).data⟩

instance : IsTrans SvcHandle svcNameLe :=
  ⟨fun _ _ _ h1 h2 => charListLeb_trans _ _ _ h1 h2⟩

/-- The body loop of `print_services` (lines 217-233): each service whose
`as_dict()` raises is skipped by the bare `except: continue`. -/
def serviceBodyLines (services : List SvcHandle) : List String :=
  services.filterMap (fun s => s.as_dict.map renderSvcInfo)

/-- `print_services` (lines 202-234).  A failing `win_service_iter()` is
caught and reported as a single diagnostic line (the f-string carries a
trailing newline, hence the extra empty line); otherwise the services are
sorted case-insensitively by name and the first `limit` are rendered. -/
def print_services_lines (services : Except String (List SvcHandle)) (limit : Nat) :
    List String :=
  let header := "=== Services (showing first " ++ toString limit ++ ") ==="
  match services with
  | .error e => [header, "Error reading services: " ++ e, ""]
  | .ok svcs =>
      header :: serviceBodyLines ((List.insertionSort svcNameLe svcs).take limit) ++ [""]

/-! ## Performance section and report driver -/

/-- `psutil.virtual_memory()` fields consumed (lines 44-48). -/
structure VMem where
  percent : Rat
  used : Nat
  total : Nat
deriving DecidableEq, Repr

/-- One `disk_io_counters(perdisk=True)` entry (lines 51-56). -/
structure DiskCounters where
  read_bytes : Nat
  write_bytes : Nat
deriving DecidableEq, Repr

/-- `psutil.net_io_counters()` fields consumed (lines 59-62). -/
structure NetCounters where
  bytes_sent : Nat
  bytes_recv : Nat
deriving DecidableEq, Repr

/-- `print_performance_summary` (lines 36-64). -/
def print_performance_summary_lines (cpu : Rat) (mem : VMem)
    (disks : List (String × DiskCounters)) (net : NetCounters) : List String :=
  ["=== Performance (summary) ===",
   "CPU usage   : " ++ fmt1 cpu ++ "%",
   "Memory      : " ++ fmt1 mem.percent ++ "% (" ++ format_gib mem.used ++
     " / " ++ format_gib mem.total ++ ")",
   "Disks I/O   :"] ++
  disks.map (fun d =>
    "  " ++ d.1 ++ ": reads=" ++ toString d.2.read_bytes ++ "B writes=" ++
      toString d.2.write_bytes ++ "B") ++
  ["Network I/O : sent=" ++ toString net.bytes_sent ++ "B recv=" ++
     toString net.bytes_recv ++ "B", ""]

/-- Everything `main` reads from the provider.  The summary and details
sections run two independent sampling passes, hence two process lists. -/
structure SysState where
  cpu : Rat
  mem : VMem
  disks : List (String × DiskCounters)
  net : NetCounters
  procsSummary : List (Option ProcInfo)
  procsDetails : List (Option ProcInfo)
  users : List UserSess
  services : Except String (List SvcHandle)

/-- `main` (lines 239-244): the five sections in order, with the literal
limits 10, 25 and 30 from the source. -/
def main_lines (st : SysState) : List String :=
  print_performance_summary_lines st.cpu st.mem st.disks st.net ++
  print_processes_summary_lines st.procsSummary 10 ++
  print_process_details_lines st.procsDetails 25 ++
  print_users_lines st.users ++
  print_services_lines st.services 30

/-! ## Supporting lemmas -/

theorem isPrefixOf_append {α : Type} [DecidableEq α] (l1 l2 : List α) :
    List.isPrefixOf l1 (l1 ++ l2) = true := by
  induction l1 with
  | nil => simp [List.isPrefixOf]
  | cons a as ih => simp [List.isPrefixOf, ih]

theorem roundHalfEven_lt (n d : Nat) (h : 2 * (n % d) < d) :
    roundHalfEven n d = n / d := by
  unfold roundHalfEven
  simp [h]

theorem roundHalfEven_gt (n d : Nat) (h : d < 2 * (n % d)) :
    roundHalfEven n d = n / d + 1 := by
  unfold roundHalfEven
  simp [h, Nat.lt_asymm h]

theorem roundHalfEven_tie (n d : Nat) (h : 2 * (n % d) = d) :
    roundHalfEven n d = n / d ∨ roundHalfEven n d = n / d + 1 := by
  unfold roundHalfEven
  rcases Nat.decEq (n / d % 2) 0 with h2 | h2 <;>
    simp [h, Nat.lt_irrefl, h2]

/-- The rounded numerator is within half a unit of the exact quotient. -/
theorem roundHalfEven_sub_le (n d : Nat) (hd : 0 < d) :
    |(roundHalfEven n d : ℚ) - (n : ℚ) / (d : ℚ)| ≤ 1 / 2 := by
  have hdd : (0 : ℚ) < (d : ℚ) := by exact_mod_cast hd
  have hq : (n : ℚ) = (d : ℚ) * ((n / d : ℕ) : ℚ) + ((n % d : ℕ) : ℚ) := by
    exact_mod_cast (Nat.div_add_mod n d).symm
  have hnd : (n : ℚ) / (d : ℚ) = ((n / d : ℕ) : ℚ) + ((n % d : ℕ) : ℚ) / (d : ℚ) := by
    field_simp
    linear_combination hq
  have hr0 : (0 : ℚ) ≤ ((n % d : ℕ) : ℚ) := by positivity
  rcases Nat.lt_trichotomy (2 * (n % d)) d with h | h | h
  · rw [roundHalfEven_lt n d h, hnd]
    have hhalf : ((n % d : ℕ) : ℚ) / (d : ℚ) ≤ 1 / 2 := by
      rw [div_le_div_iff₀ hdd (by norm_num)]
      have h2 : ((2 * (n % d) : ℕ) : ℚ) ≤ ((d : ℕ) : ℚ) := by exact_mod_cast le_of_lt h
      push_cast at h2
      linarith
    have hpos : (0 : ℚ) ≤ ((n % d : ℕ) : ℚ) / (d : ℚ) := div_nonneg hr0 hdd.le
    rw [abs_le]
    constructor <;> linarith
  · have hhalf : ((n % d : ℕ) : ℚ) / (d : ℚ) = 1 / 2 := by
      rw [div_eq_div_iff hdd.ne' (by norm_num : (2:ℚ) ≠ 0)]
      have h2 : ((2 * (n % d) : ℕ) : ℚ) = ((d : ℕ) : ℚ) := by exact_mod_cast h
      push_cast at h2
      linarith
    rcases roundHalfEven_tie n d h with he | he <;> rw [he, hnd, hhalf, abs_le] <;>
      constructor <;> push_cast <;> linarith
  · rw [roundHalfEven_gt n d h, hnd]
    have hhalf : 1 / 2 ≤ ((n % d : ℕ) : ℚ) / (d : ℚ) := by
      rw [div_le_div_iff₀ (by norm_num) hdd]
      have h2 : ((d : ℕ) : ℚ) ≤ ((2 * (n % d) : ℕ) : ℚ) := by exact_mod_cast le_of_lt h
      push_cast at h2
      linarith
    have hlt : ((n % d : ℕ) : ℚ) / (d : ℚ) < 1 := by
      rw [div_lt_one hdd]
      exact_mod_cast Nat.mod_lt n hd
    rw [abs_le]
    constructor <;> push_cast <;> linarith

theorem pad2_length : ∀ f : Nat, f < 100 → (pad2 f).length = 2 := by decide

/-! ## Claim theorems -/

/-- Claim C1: for every input list of process rows and every limit N, the
ranker (sort by cpu_percent descending, take the first N) returns a
sequence of length min(N, len(input)), ordered by the key descending, and
for N ≥ len(input) it equals the full descending sort, a permutation of
the input.  Stated for any rational key, covering the cpu_percent uses at
lines 99-100 and 162-163. -/
theorem c1_ranker {α : Type} (key : α → Rat) (rows : List α) (n : Nat) :
    (rank key rows n).length = min n rows.length ∧
    (rank key rows n).Pairwise (fun a b => key b ≤ key a) ∧
    (rows.length ≤ n →
      rank key rows n = List.insertionSort (keyDesc key) rows ∧
      List.Perm (rank key rows n) rows) := by
  refine ⟨?_, ?_, fun h => ?_⟩
  · rw [rank, List.length_take, List.length_insertionSort]
  · exact (List.sorted_insertionSort (keyDesc key) rows).sublist
      (List.take_sublist n (List.insertionSort (keyDesc key) rows))
  · have hfull : rank key rows n = List.insertionSort (keyDesc key) rows := by
      rw [rank]
      exact List.take_of_length_le (by rw [List.length_insertionSort]; exact h)
    exact ⟨hfull, hfull ▸ List.perm_insertionSort (keyDesc key) rows⟩

theorem c1_ranker_witness :
    ([(⟨1, "a", "u", 5, "m"⟩ : ProcRow), ⟨2, "b", "u", 9, "m"⟩] : List ProcRow).length ≤ 3 ∧
    List.Perm (rank ProcRow.cpu_percent [⟨1, "a", "u", 5, "m"⟩, ⟨2, "b", "u", 9, "m"⟩] 3)
      [⟨1, "a", "u", 5, "m"⟩, ⟨2, "b", "u", 9, "m"⟩] :=
  ⟨by decide,
   ((c1_ranker ProcRow.cpu_percent [⟨1, "a", "u", 5, "m"⟩, ⟨2, "b", "u", 9, "m"⟩] 3).2.2
     (by decide)).2⟩

/-- Claim C3: the unit formatter maps a byte count to the value divided by
2^30 rendered with two decimal places and the suffix " GiB": the three
documented sample points hold exactly, and every output consists of the
integer part, a dot, a two-character fractional field below 100, and the
suffix, whose displayed value is within half a hundredth of the exact
quotient bytes / 2^30. -/
theorem c3_format_gib :
    format_gib 0 = "0.00 GiB" ∧
    format_gib (2 ^ 30) = "1.00 GiB" ∧
    format_gib (3 * 2 ^ 29) = "1.50 GiB" ∧
    ∀ b : Nat, ∃ i f : Nat,
      format_gib b = toString i ++ "." ++ pad2 f ++ " GiB" ∧
      f < 100 ∧ (pad2 f).length = 2 ∧
      |((i : ℚ) + (f : ℚ) / 100) - (b : ℚ) / 2 ^ 30| ≤ 1 / 200 := by
  refine ⟨by decide, by decide, by decide, fun b => ?_⟩
  refine ⟨roundHalfEven (b * 100) (2 ^ 30) / 100, roundHalfEven (b * 100) (2 ^ 30) % 100,
    rfl, Nat.mod_lt _ (by norm_num), pad2_length _ (Nat.mod_lt _ (by norm_num)), ?_⟩
  have hc := roundHalfEven_sub_le (b * 100) (2 ^ 30) (by norm_num)
  have hdm : 100 * (roundHalfEven (b * 100) (2 ^ 30) / 100) +
      roundHalfEven (b * 100) (2 ^ 30) % 100 = roundHalfEven (b * 100) (2 ^ 30) :=
    Nat.div_add_mod _ 100
  have key : ((roundHalfEven (b * 100) (2 ^ 30) / 100 : ℕ) : ℚ) +
      ((roundHalfEven (b * 100) (2 ^ 30) % 100 : ℕ) : ℚ) / 100 =
      ((roundHalfEven (b * 100) (2 ^ 30) : ℕ) : ℚ) / 100 := by
    field_simp
    exact_mod_cast Nat.div_add_mod' (roundHalfEven (b * 100) (2 ^ 30)) 100
  rw [key]
  have e1 : ((roundHalfEven (b * 100) (2 ^ 30) : ℕ) : ℚ) / 100 - (b : ℚ) / 2 ^ 30 =
      (((roundHalfEven (b * 100) (2 ^ 30) : ℕ) : ℚ) -
        ((b * 100 : ℕ) : ℚ) / ((2 ^ 30 : ℕ) : ℚ)) / 100 := by
    push_cast
    ring
  rw [e1, abs_div, abs_of_pos (by norm_num : (0 : ℚ) < 100)]
  linarith

/-- A concrete sampling result with eleven live processes; the process
named "pK" has the lowest cpu_percent. -/
def procs11 : List (Option ProcInfo) :=
  [some ⟨11, some "pK", some "u", some "running", 0, some ⟨2 ^ 30⟩⟩,
   some ⟨1, some "pA", some "u", some "running", 10, some ⟨2 ^ 30⟩⟩,
   some ⟨2, some "pB", some "u", some "running", 9, some ⟨2 ^ 30⟩⟩,
   some ⟨3, some "pC", some "u", some "running", 8, some ⟨2 ^ 30⟩⟩,
   some ⟨4, some "pD", some "u", some "running", 7, some ⟨2 ^ 30⟩⟩,
   some ⟨5, some "pE", some "u", some "running", 6, some ⟨2 ^ 30⟩⟩,
   some ⟨6, some "pF", some "u", some "running", 5, some ⟨2 ^ 30⟩⟩,
   some ⟨7, some "pG", some "u", some "running", 4, some ⟨2 ^ 30⟩⟩,
   some ⟨8, some "pH", some "u", some "running", 3, some ⟨2 ^ 30⟩⟩,
   some ⟨9, some "pI", some "u", some "running", 2, some ⟨2 ^ 30⟩⟩,
   some ⟨10, some "pJ", some "u", some "running", 1, some ⟨2 ^ 30⟩⟩]

/-- Claim C2 is false on the code: `main` calls the Processes-summary
section with `limit=10` (line 241), so with eleven sampled processes the
row of the process named "pK" is sampled but appears on no rendered line
of the section — the sections are bounded top-N, not "show all". -/
theorem c2_counterexample :
    (∃ info ∈ procs11.filterMap id, pyOrElse info.name "" = "pK") ∧
    (summaryRows procs11).length = 11 ∧
    (∀ l ∈ print_processes_summary_lines procs11 10,
      List.isSuffixOf "NAME pK".data l.data = false) := by decide

/-- Claim C2 as amended: the Processes-summary and Process-details
sections of `main` run in bounded top-N mode with N = 10 and N = 25
respectively: each renders exactly the first min(N, sampled-count) rows
of the descending cpu_percent sort, and only when the sampled count is
within the bound does every sampled row appear (as a permutation of the
sample). -/
theorem c2_amended (st : SysState) :
    (get_top_processes st.procsSummary 10).length =
      min 10 (summaryRows st.procsSummary).length ∧
    (get_top_processes st.procsSummary 10 ≠ [] →
      print_processes_summary_lines st.procsSummary 10 =
        "=== Processes (top 10 by CPU) ===" ::
          (get_top_processes st.procsSummary 10).map renderSummaryRow ++ [""]) ∧
    ((summaryRows st.procsSummary).length ≤ 10 →
      List.Perm (get_top_processes st.procsSummary 10) (summaryRows st.procsSummary)) ∧
    (rank DetailRow.cpu_percent (detailRows st.procsDetails) 25).length =
      min 25 (detailRows st.procsDetails).length ∧
    ((detailRows st.procsDetails).length ≤ 25 →
      List.Perm (rank DetailRow.cpu_percent (detailRows st.procsDetails) 25)
        (detailRows st.procsDetails)) := by
  refine ⟨(c1_ranker _ _ _).1, fun h => ?_, fun h => ?_, (c1_ranker _ _ _).1, fun h => ?_⟩
  · rw [print_processes_summary_lines]
    simp only [List.isEmpty_iff]
    rw [if_neg h, show "=== Processes (top " ++ toString 10 ++ " by CPU) ===" =
      "=== Processes (top 10 by CPU) ===" from by decide]
  · exact ((c1_ranker ProcRow.cpu_percent (summaryRows st.procsSummary) 10).2.2 h).2
  · exact ((c1_ranker DetailRow.cpu_percent (detailRows st.procsDetails) 25).2.2 h).2

theorem c2_amended_witness :
    (summaryRows [some ⟨1, some "pA", some "u", some "running", 2, some ⟨0⟩⟩,
                  some ⟨2, some "pB", some "u", some "running", 7, some ⟨0⟩⟩]).length ≤ 10 ∧
    List.Perm
      (get_top_processes [some ⟨1, some "pA", some "u", some "running", 2, some ⟨0⟩⟩,
                          some ⟨2, some "pB", some "u", some "running", 7, some ⟨0⟩⟩] 10)
      (summaryRows [some ⟨1, some "pA", some "u", some "running", 2, some ⟨0⟩⟩,
                    some ⟨2, some "pB", some "u", some "running", 7, some ⟨0⟩⟩]) :=
  ⟨by decide,
   (c2_amended ⟨0, ⟨0, 0, 0⟩, [], ⟨0, 0⟩,
      [some ⟨1, some "pA", some "u", some "running", 2, some ⟨0⟩⟩,
       some ⟨2, some "pB", some "u", some "running", 7, some ⟨0⟩⟩],
      [], [], .ok []⟩).2.2.1 (by decide)⟩

/-- The separator rule `"-" * 100` of the Details table (line 167). -/
def detailsRule : String := ⟨List.replicate 100 '-'⟩

/-- Claim C4 is false on the code: `print_process_details` has no
empty-input branch, so on an empty sample the Details section renders its
header, column header and separator rule over an empty table body, and no
line of its output is (or begins like) a "no data" line. -/
theorem c4_counterexample :
    print_process_details_lines [] 25 =
      ["=== Details (top 25 by CPU) ===", detailsColumnHeader, detailsRule, ""] ∧
    (∀ l ∈ print_process_details_lines [] 25,
      List.isPrefixOf "No ".data l.data = false) := by decide

/-- Claim C4 as amended: rendering an empty ranked list never raises in
any section (all renderers are total); the Processes-summary section
renders its documented single "no data" line, but the Details section
renders its header, column header and rule with an empty body and no "no
data" line, and the Services section renders just its header for an empty
service list. -/
theorem c4_amended (procs : List (Option ProcInfo)) :
    (summaryRows procs = [] →
      print_processes_summary_lines procs 10 =
        ["=== Processes (top 10 by CPU) ===", "No processes found.", ""]) ∧
    (detailRows procs = [] →
      print_process_details_lines procs 25 =
        ["=== Details (top 25 by CPU) ===", detailsColumnHeader, detailsRule, ""]) ∧
    print_services_lines (.ok []) 30 = ["=== Services (showing first 30) ===", ""] := by
  refine ⟨fun h => ?_, fun h => ?_, by decide⟩
  · rw [print_processes_summary_lines]
    simp only [get_top_processes, rank, h, List.insertionSort, List.take_nil,
      List.isEmpty_nil, if_true]
    rw [show "=== Processes (top " ++ toString 10 ++ " by CPU) ===" =
      "=== Processes (top 10 by CPU) ===" from by decide]
  · rw [print_process_details_lines]
    simp only [rank, h, List.insertionSort, List.take_nil, List.map_nil,
      List.nil_append]
    rw [show "=== Details (top " ++ toString 25 ++ " by CPU) ===" =
      "=== Details (top 25 by CPU) ===" from by decide]
    rfl

theorem c4_amended_witness :
    summaryRows [none] = [] ∧
    print_processes_summary_lines [none] 10 =
      ["=== Processes (top 10 by CPU) ===", "No processes found.", ""] ∧
    detailRows [none] = [] ∧
    print_process_details_lines [none] 25 =
      ["=== Details (top 25 by CPU) ===", detailsColumnHeader, detailsRule, ""] :=
  ⟨by decide, (c4_amended [none]).1 (by decide), by decide, (c4_amended [none]).2.1 (by decide)⟩

/-- Claim C5: the Services section orders rendered services alphabetically
by name, compared case-insensitively: the section renders the body of the
case-insensitively sorted handle list, such a list is pairwise ordered by
the lowercased-name relation, and given exactly the services "beta" and
"Alpha" (in that provider order) the output lists "Alpha" before "beta". -/
theorem c5_services_sorted (svcs : List SvcHandle) (limit : Nat) :
    print_services_lines (.ok svcs) limit =
      ("=== Services (showing first " ++ toString limit ++ ") ===") ::
        serviceBodyLines ((List.insertionSort svcNameLe svcs).take limit) ++ [""] ∧
    ((List.insertionSort svcNameLe svcs).take limit).Pairwise svcNameLe ∧
    print_services_lines (.ok
        [⟨"beta", some ⟨"beta", "Beta Service", "running", some 4⟩⟩,
         ⟨"Alpha", some ⟨"Alpha", "Alpha Service", "stopped", none⟩⟩]) 30 =
      ["=== Services (showing first 30) ===",
       renderSvcInfo ⟨"Alpha", "Alpha Service", "stopped", none⟩,
       renderSvcInfo ⟨"beta", "Beta Service", "running", some 4⟩, ""] := by
  refine ⟨rfl, ?_, by decide⟩
  exact (List.sorted_insertionSort svcNameLe svcs).sublist
    (List.take_sublist limit (List.insertionSort svcNameLe svcs))

/-- Claim C6: when enumerating services fails, the Services section
prints its header and exactly one diagnostic line, returns a value (the
model of returning normally), and the rest of the report — here every
earlier section, services being the last section of `main` — is still
produced in full. -/
theorem c6_services_failure (st : SysState) (e : String) (h : st.services = .error e) :
    print_services_lines st.services 30 =
      ["=== Services (showing first 30) ===", "Error reading services: " ++ e, ""] ∧
    (print_services_lines st.services 30).countP
      (fun l => List.isPrefixOf "Error reading services: ".data l.data) = 1 ∧
    main_lines st =
      print_performance_summary_lines st.cpu st.mem st.disks st.net ++
      print_processes_summary_lines st.procsSummary 10 ++
      print_process_details_lines st.procsDetails 25 ++
      print_users_lines st.users ++
      ["=== Services (showing first 30) ===", "Error reading services: " ++ e, ""] := by
  have h1 : print_services_lines st.services 30 =
      ["=== Services (showing first 30) ===", "Error reading services: " ++ e, ""] := by
    rw [h, print_services_lines]
    rw [show "=== Services (showing first " ++ toString 30 ++ ") ===" =
      "=== Services (showing first 30) ===" from by decide]
  refine ⟨h1, ?_, ?_⟩
  · rw [h1]
    have hpre : List.isPrefixOf "Error reading services: ".data
        ("Error reading services: " ++ e).data = true := by
      rw [String.data_append]
      exact isPrefixOf_append _ _
    have hhead : List.isPrefixOf "Error reading services: ".data
        "=== Services (showing first 30) ===".data = false := by decide
    have hblank : List.isPrefixOf "Error reading services: ".data "".data = false := by decide
    simp [List.countP_cons, hpre, hhead, hblank]
  · rw [main_lines, h1]

theorem c6_services_failure_witness :
    print_services_lines
      (SysState.services ⟨0, ⟨0, 0, 0⟩, [], ⟨0, 0⟩, [], [], [], .error "nope"⟩) 30 =
      ["=== Services (showing first 30) ===", "Error reading services: " ++ "nope", ""] :=
  (c6_services_failure ⟨0, ⟨0, 0, 0⟩, [], ⟨0, 0⟩, [], [], [], .error "nope"⟩ "nope" rfl).1

/-- Claim C7: in the Details table the name field is truncated to at most
28 characters and then left-padded to a 30-character column: the rendered
row starts with that field, the truncation keeps min(28, len) characters
— exactly 28 for longer names — and the padded column always measures
exactly 30 characters. -/
theorem c7_name_truncation (r : DetailRow) :
    (∃ rest, renderDetailRow r = pyLjust (pyTake r.name 28) 30 ++ rest) ∧
    (pyTake r.name 28).length = min 28 r.name.length ∧
    (pyLjust (pyTake r.name 28) 30).length = 30 ∧
    (28 < r.name.length → (pyTake r.name 28).length = 28) := by
  have htake : (pyTake r.name 28).length = min 28 r.name.length :=
    List.length_take 28 r.name.data
  have htle : (pyTake r.name 28).data.length ≤ 28 :=
    List.length_take_le 28 r.name.data
  refine ⟨⟨_, rfl⟩, htake, ?_, fun h => ?_⟩
  · show ((pyTake r.name 28).data ++
      List.replicate (30 - (pyTake r.name 28).data.length) ' ').length = 30
    rw [List.length_append, List.length_replicate]
    omega
  · rw [htake]
    omega

theorem c7_name_truncation_witness :
    28 < ("abcdefghijklmnopqrstuvwxyz123" : String).length ∧
    (pyTake "abcdefghijklmnopqrstuvwxyz123" 28).length = 28 :=
  ⟨by decide,
   (c7_name_truncation ⟨1, "abcdefghijklmnopqrstuvwxyz123", "s", "u", 0, "m", "d"⟩).2.2.2
     (by decide)⟩

/-- Claim C8: an absent host, terminal or service pid is rendered as the
placeholder "-" (never an empty gap nor a None marker — the equalities
pin the full output line), each absent field independently of the others,
and a missing process name or username becomes the empty string in the
row, never the string "None". -/
theorem c8_placeholder_rendering (u : UserSess) (info : SvcInfo) (p : ProcInfo) :
    (u.host = none →
      renderUser u = "User: " ++ u.name ++ "  " ++ "Host: " ++ "-" ++ "  " ++
        "Terminal: " ++ pyOrElse u.terminal "-" ++ "  " ++ "Started: " ++ u.started) ∧
    (u.terminal = none →
      renderUser u = "User: " ++ u.name ++ "  " ++ "Host: " ++ pyOrElse u.host "-" ++
        "  " ++ "Terminal: " ++ "-" ++ "  " ++ "Started: " ++ u.started) ∧
    (info.pid = none →
      renderSvcInfo info = "Name: " ++ pyLjust info.name 30 ++ "  " ++ "PID: " ++
        pyLjust "-" 6 ++ "  " ++ "Status: " ++ pyLjust info.status 10 ++ "  " ++
        "Description: " ++ info.display_name) ∧
    (p.name = none → (buildSummaryRow p).name = "" ∧ (buildDetailRow p).name = "" ∧
      (buildSummaryRow p).name ≠ "None") ∧
    (p.username = none →
      (buildSummaryRow p).username = "" ∧ (buildDetailRow p).username = "") := by
  refine ⟨fun h1 => ?_, fun h2 => ?_, fun hpid => ?_, fun hn => ⟨?_, ?_, ?_⟩,
    fun hu => ⟨?_, ?_⟩⟩
  · simp only [renderUser, h1]
    rfl
  · simp only [renderUser, h2]
    rfl
  · simp [renderSvcInfo, hpid]
  · simp [buildSummaryRow, hn, pyOrElse]
  · simp [buildDetailRow, hn, pyOrElse]
  · simp [buildSummaryRow, hn, pyOrElse]
  · simp [buildSummaryRow, hu, pyOrElse]
  · simp [buildDetailRow, hu, pyOrElse]

theorem c8_placeholder_rendering_witness :
    renderUser ⟨"alice", none, some "tty1", "1700000000.0"⟩ =
      "User: " ++ "alice" ++ "  " ++ "Host: " ++ "-" ++ "  " ++
        "Terminal: " ++ pyOrElse (some "tty1") "-" ++ "  " ++ "Started: " ++ "1700000000.0" ∧
    renderUser ⟨"bob", some "host1", none, "1700000000.0"⟩ =
      "User: " ++ "bob" ++ "  " ++ "Host: " ++ pyOrElse (some "host1") "-" ++ "  " ++
        "Terminal: " ++ "-" ++ "  " ++ "Started: " ++ "1700000000.0" ∧
    renderSvcInfo ⟨"svc", "Svc Display", "stopped", none⟩ =
      "Name: " ++ pyLjust "svc" 30 ++ "  " ++ "PID: " ++ pyLjust "-" 6 ++ "  " ++
        "Status: " ++ pyLjust "stopped" 10 ++ "  " ++ "Description: " ++ "Svc Display" ∧
    (buildSummaryRow ⟨7, none, none, none, 0, none⟩).name = "" ∧
    (buildSummaryRow ⟨7, none, none, none, 0, none⟩).username = "" :=
  ⟨(c8_placeholder_rendering ⟨"alice", none, some "tty1", "1700000000.0"⟩
      ⟨"svc", "Svc Display", "stopped", none⟩ ⟨7, none, none, none, 0, none⟩).1 rfl,
   (c8_placeholder_rendering ⟨"bob", some "host1", none, "1700000000.0"⟩
      ⟨"svc", "Svc Display", "stopped", none⟩ ⟨7, none, none, none, 0, none⟩).2.1 rfl,
   (c8_placeholder_rendering ⟨"alice", none, some "tty1", "1700000000.0"⟩
      ⟨"svc", "Svc Display", "stopped", none⟩ ⟨7, none, none, none, 0, none⟩).2.2.1 rfl,
   ((c8_placeholder_rendering ⟨"alice", none, some "tty1", "1700000000.0"⟩
      ⟨"svc", "Svc Display", "stopped", none⟩ ⟨7, none, none, none, 0, none⟩).2.2.2.1 rfl).1,
   ((c8_placeholder_rendering ⟨"alice", none, some "tty1", "1700000000.0"⟩
      ⟨"svc", "Svc Display", "stopped", none⟩ ⟨7, none, none, none, 0, none⟩).2.2.2.2 rfl).1⟩

/-- Claim C9: a sampled process whose provider returned no memory_info
gets a resident-size display defaulting to 0 bytes: its row is still
produced (it is among the sampled rows of both sections) and its memory
column renders as "0.00 GiB". -/
theorem c9_missing_memory_info (p : ProcInfo) (procs : List (Option ProcInfo))
    (hmem : p.memory_info = none) (hp : some p ∈ procs) :
    (buildSummaryRow p).memory_rss_gib = "0.00 GiB" ∧
    (buildDetailRow p).memory_rss_gib = "0.00 GiB" ∧
    buildSummaryRow p ∈ summaryRows procs ∧
    buildDetailRow p ∈ detailRows procs := by
  have h0 : format_gib 0 = "0.00 GiB" := by decide
  refine ⟨?_, ?_, ?_, ?_⟩
  · simp [buildSummaryRow, hmem, h0]
  · simp [buildDetailRow, hmem, h0]
  · exact List.mem_map_of_mem buildSummaryRow (List.mem_filterMap.mpr ⟨some p, hp, rfl⟩)
  · exact List.mem_map_of_mem buildDetailRow (List.mem_filterMap.mpr ⟨some p, hp, rfl⟩)

theorem c9_missing_memory_info_witness :
    (buildSummaryRow ⟨1, some "x", some "u", some "running", 0, none⟩).memory_rss_gib =
      "0.00 GiB" ∧
    buildSummaryRow ⟨1, some "x", some "u", some "running", 0, none⟩ ∈
      summaryRows [some ⟨1, some "x", some "u", some "running", 0, none⟩] :=
  ⟨(c9_missing_memory_info ⟨1, some "x", some "u", some "running", 0, none⟩
      [some ⟨1, some "x", some "u", some "running", 0, none⟩] rfl (by decide)).1,
   (c9_missing_memory_info ⟨1, some "x", some "u", some "running", 0, none⟩
      [some ⟨1, some "x", some "u", some "running", 0, none⟩] rfl (by decide)).2.2.1⟩

/-- Claim C10: inside the Services section, a service whose `as_dict()`
read fails contributes no line and is silently skipped: the body lines of
a list containing the failing handle equal those of the list without it,
and rendering still emits the lines of everything before and after it. -/
theorem c10_per_service_failure (pre post : List SvcHandle) (bad : SvcHandle)
    (h : bad.as_dict = none) :
    serviceBodyLines (pre ++ bad :: post) = serviceBodyLines (pre ++ post) ∧
    serviceBodyLines (pre ++ bad :: post) =
      serviceBodyLines pre ++ serviceBodyLines post := by
  constructor <;>
    simp [serviceBodyLines, List.filterMap_append, List.filterMap_cons, h]

theorem c10_per_service_failure_witness :
    serviceBodyLines [⟨"a", some ⟨"a", "A", "running", some 1⟩⟩, ⟨"b", none⟩,
                      ⟨"c", some ⟨"c", "C", "stopped", none⟩⟩] =
      serviceBodyLines [⟨"a", some ⟨"a", "A", "running", some 1⟩⟩,
                        ⟨"c", some ⟨"c", "C", "stopped", none⟩⟩] :=
  (c10_per_service_failure [⟨"a", some ⟨"a", "A", "running", some 1⟩⟩]
    [⟨"c", some ⟨"c", "C", "stopped", none⟩⟩] ⟨"b", none⟩ rfl).1
